import Mathlib

/-!
Verification development for the Medi-Minds realtime relay server
(src/backend/api_server.py, src/backend/tools/multiply.py).

The development shallowly embeds the session/event reconciliation core:
Python dicts keyed by strings become association lists, Python sets become
Finset String, Python floats produced by the multiply tool become rationals
(every value any theorem evaluates is exact in binary floating point, so the
rational model agrees with the float semantics on those values), and each
iteration of the two per-client loops (the upstream event consumption loop
inside ConnectionManager.handle_realtime_connection and the inbound command
loop inside websocket_endpoint) becomes a pure step function from state to
state plus a list of observable effects.
-/

/-- Association-list lookup, modelling Python dict access d.get(k). -/
def dget {α : Type} : List (String × α) → String → Option α
  | [], _ => none
  | p :: t, k => if p.1 = k then some p.2 else dget t k

/-- Association-list update, modelling Python dict assignment d[k] = v
(keys stay unique when they were unique). -/
def dset {α : Type} : List (String × α) → String → α → List (String × α)
  | [], k, v => [(k, v)]
  | p :: t, k, v => if p.1 = k then (k, v) :: t else p :: dset t k v

/-- Removal of every entry with the given key. -/
def dDelAll {α : Type} : List (String × α) → String → List (String × α)
  | [], _ => []
  | p :: t, k => if p.1 = k then dDelAll t k else p :: dDelAll t k

/-- Guarded deletion, modelling the pattern used throughout
ConnectionManager.disconnect (api_server.py:73-89): if k in d: del d[k].
Deletion of an absent key is a no-op rather than an error. -/
def ddel {α : Type} (d : List (String × α)) (k : String) : List (String × α) :=
  if (dget d k).isSome then dDelAll d k else d

/-- Values that can appear in a decoded JSON argument object; the multiply
handlers only ever read numbers, strings, or the null value. -/
inductive PyVal where
  | num (q : ℚ)
  | str (s : String)
  | null
deriving DecidableEq

/-- Source of tool-call arguments, mirroring the isinstance(arguments, str)
branches in api_server.py (lines 270-271, 330-333, 377-380): either a raw
JSON string, represented by the result of json.loads on it (none models a
parse failure), or an already-structured object. -/
inductive ArgSrc where
  | jsonStr (parsed : Option (List (String × PyVal)))
  | dict (d : List (String × PyVal))
deriving DecidableEq

/-- Digit-string value; none when a non-digit occurs. -/
def digitsToNat (cs : List Char) : Option Nat :=
  if cs.all Char.isDigit then
    some (cs.foldl (fun n c => n * 10 + (c.toNat - 48)) 0)
  else none

/-- Model of the Python float(str) coercion on plain decimal literals
(optional sign, integer part, optional fractional part). Exponent, inf and
nan forms are outside the subset exercised by the tool-call paths. -/
def pyParseFloat (s : String) : Option ℚ :=
  let cs := s.toList
  let signRest : ℚ × List Char :=
    match cs with
    | '-' :: r => (-1, r)
    | '+' :: r => (1, r)
    | r => (1, r)
  let sign := signRest.1
  let rest := signRest.2
  let ip := rest.takeWhile (fun c => !(c = '.'))
  let rest2 := rest.dropWhile (fun c => !(c = '.'))
  match rest2 with
  | [] =>
      match digitsToNat ip with
      | some n => if ip.isEmpty then none else some (sign * n)
      | none => none
  | _ :: fp =>
      if fp.any (fun c => c = '.') then none
      else
        match digitsToNat ip, digitsToNat fp with
        | some n, some f =>
            if ip.isEmpty && fp.isEmpty then none
            else some (sign * ((n : ℚ) + (f : ℚ) / (10 : ℚ) ^ fp.length))
        | _, _ => none

/-- Model of the Python str() rendering of a float. On floats with integral
value (the only values any theorem in this file evaluates) CPython renders
the integer followed by .0; the non-integral branch is a placeholder
rendering never reached by a claim. -/
def pyFloatStr (q : ℚ) : String :=
  if q.den = 1 then toString q.num ++ ".0"
  else toString q.num ++ "/" ++ toString q.den

/-- Model of the Python float() coercion applied to a decoded JSON value,
as in float(arguments.get("a", 0)); failures carry the exception text. -/
def pyFloat : PyVal → Except String ℚ
  | .num q => .ok q
  | .str s =>
      match pyParseFloat s with
      | some q => .ok q
      | none => .error ("could not convert string to float: " ++ s)
  | .null => .error "float() argument must be a string or a real number, not NoneType"

/-- Embedding of execute_multiply (tools/multiply.py:29-44): pure product of
the two numbers plus the human-readable calculation string. -/
def execute_multiply (a b : ℚ) : ℚ × String :=
  (a * b, pyFloatStr a ++ " × " ++ pyFloatStr b ++ " = " ++ pyFloatStr (a * b))

/-- Python dict .get with a default, as in arguments.get("a", 0). -/
def argsLookup (d : List (String × PyVal)) (k : String) (dflt : PyVal) : PyVal :=
  (dget d k).getD dflt

/-- Shared argument-parsing and execution path of all three tool-call
handlers in api_server.py (lines 270-275, 330-337, 377-384): decode the
argument payload when it is a string, coerce a and b with float() using the
default 0 for an absent key, and multiply. An error value models the raised
exception caught by the surrounding except block. -/
def multiplyFromArgs (src : ArgSrc) : Except String ℚ :=
  match src with
  | .jsonStr none => Except.error "Expecting value: line 1 column 1 (char 0)"
  | .jsonStr (some args) | .dict args =>
      match pyFloat (argsLookup args "a" (.num 0)) with
      | .error e => Except.error e
      | .ok a =>
          match pyFloat (argsLookup args "b" (.num 0)) with
          | .error e => Except.error e
          | .ok b => Except.ok (execute_multiply a b).1

/-- Python truthiness of an optional string: None and the empty string are
falsy, as used in checks such as if function_name == "multiply" and call_id. -/
def truthyS (s : Option String) : Bool :=
  match s with
  | none => false
  | some v => if v = "" then false else true

/-- Python x or y on optional strings: keep x when truthy, else y. -/
def pyOrS (a b : Option String) : Option String :=
  if truthyS a then a else b

/-- Python truthiness of an optional argument payload: an absent value is
falsy, an empty structured object is falsy, and a JSON argument string is
truthy (the handlers only ever receive nonempty argument strings; the empty
string would fail json.loads anyway). -/
def truthyArgs : Option ArgSrc → Bool
  | none => false
  | some (.jsonStr _) => true
  | some (.dict d) => !d.isEmpty

/-- Python x or y on optional argument payloads. -/
def pyOrArgs (a b : Option ArgSrc) : Option ArgSrc :=
  if truthyArgs a then a else b

/-- View of a function-call payload dict through the six keys the extraction
code of api_server.py:255-264 reads from it. -/
structure FCView where
  name : Option String
  function_name : Option String
  arguments : Option ArgSrc
  args : Option ArgSrc
  id : Option String
  tool_call_id : Option String
deriving DecidableEq

/-- Dict-shaped content part, as produced by event.model_dump() for a
response.content_part.added event (api_server.py:220-233). The nested
function_call value is kept as the view of it that the extraction code
reads; when the code falls back to using the part itself as the
function-call payload, PDict.toView produces the same view of the part. -/
structure PDict where
  type_ : Option String
  name : Option String
  function_name : Option String
  arguments : Option ArgSrc
  args : Option ArgSrc
  id : Option String
  tool_call_id : Option String
  function_call : Option FCView
deriving DecidableEq

/-- Key-compatible view of a part dict used when the extraction treats the
part itself as the function-call payload. -/
def PDict.toView (p : PDict) : FCView :=
  { name := p.name
    function_name := p.function_name
    arguments := p.arguments
    args := p.args
    id := p.id
    tool_call_id := p.tool_call_id }

/-- Whether a character list starts with the pattern. -/
def subAt : List Char → List Char → Bool
  | _, [] => true
  | [], _ :: _ => false
  | c :: t, p :: pt => if c = p then subAt t pt else false

/-- Substring test on character lists, used to model the in operator on
rendered dicts. -/
def hasSub : List Char → List Char → Bool
  | [], pat => pat.isEmpty
  | c :: t, pat => if subAt (c :: t) pat then true else hasSub t pat

/-- Whether an optional string field would make "function" appear in the
lowercased rendering of the dict. -/
def optMentionsFunction (f : Option String) : Bool :=
  match f with
  | none => false
  | some v => hasSub (v.toList.map Char.toLower) "function".toList

/-- Model of the check "function" in str(part).lower() (api_server.py:249):
the rendering of the dict contains the substring "function" when a
function_call or function_name key is present, or when one of its string
fields contains it. String values buried inside the argument payload are not
scanned; no handled event shape depends on that case. -/
def partMentionsFunction (p : PDict) : Bool :=
  p.function_call.isSome || p.function_name.isSome ||
  optMentionsFunction p.type_ || optMentionsFunction p.name ||
  optMentionsFunction p.id || optMentionsFunction p.tool_call_id

/-- Result of the function-call extraction attempted on a content part. -/
structure Extracted where
  functionName : Option String
  arguments : ArgSrc
  toolCallId : Option String
deriving DecidableEq

/-- Embedding of the extraction chain of the response.content_part.added
handler (api_server.py:238-264): locate a function-call payload by the three
fallback paths, then read name, arguments and call id through the or-chains
of lines 255-264. The extracted payload is always dict-shaped here, so the
isinstance(function_call, dict) test of line 254 is always true. -/
def contentPartExtract (part : PDict) : Option Extracted :=
  let fc : Option FCView :=
    if part.type_ = some "function_call" then some (part.function_call.getD part.toView)
    else if part.function_call.isSome then part.function_call
    else if partMentionsFunction part then some part.toView
    else none
  match fc with
  | none => none
  | some f =>
      some { functionName := pyOrS f.name (pyOrS f.function_name part.name)
             arguments := (pyOrArgs f.arguments f.args).getD (.dict [])
             toolCallId := pyOrS part.id (pyOrS f.id (pyOrS f.tool_call_id part.tool_call_id)) }

/-- One tool call as carried by a response.requires_action event
(api_server.py:318-323), with the alternative field spellings the handler
probes. -/
structure TCFn where
  name : Option String
  arguments : Option ArgSrc
deriving DecidableEq

structure TCall where
  id : Option String
  tool_call_id : Option String
  function : Option TCFn
  name : Option String
  arguments : Option ArgSrc
deriving DecidableEq

/-- Upstream realtime events, one constructor per event type the loop in
handle_realtime_connection distinguishes (api_server.py:124-462); otherEvent
covers every remaining type tag, which the loop forwards unchanged. -/
inductive UpEv where
  | sessionCreated (sessionId : Option String)
  | sessionUpdated (sessionId : Option String)
  | outputAudioDelta (itemId delta : String)
  | outputAudioTranscriptDelta (itemId delta : String)
  | responseCreated
  | contentPartAdded (part : PDict)
  | requiresAction (toolCalls : List TCall)
  | functionCallArgumentsDone (callId name : Option String) (arguments : ArgSrc)
  | functionCallArgumentsDelta (name : Option String)
  | otherEvent (payload : String)
deriving DecidableEq

/-- Messages the server sends to the client over the websocket. -/
inductive ClientMsg where
  | connectionReady
  | sessionCreatedMsg (sessionId : String)
  | audioDelta (itemId delta : String)
  | transcriptDelta (itemId text : String)
  | recordingStarted
  | recordingStopped
  | hardStopped
  | realtimeEvent (event : UpEv)
deriving DecidableEq

/-- Operations the server performs on the upstream realtime connection. -/
inductive UpAction where
  | responseCancel
  | inputAudioBufferAppend (audio : String)
  | inputAudioBufferCommit
  | inputAudioBufferClear
  | submitToolOutputs (outputs : List (String × String))
  | conversationItemCreate (callId output : String)
  | responseCreate (instructions : String)
deriving DecidableEq

/-- Observable effect of one handler step, in source order: the local state
mutations of the command handlers appear as explicit marks so that the
ordering stated by the spec can be expressed, interleaved with the upstream
operations, the fixed grace wait of start_recording, and the messages sent
to the client. -/
inductive Out where
  | incrementGeneration
  | clearValidAudioItemIds
  | graceWait
  | clearTranscriptAccumulator
  | clearLastAudioItemId
  | setAudioAcceptance (accept : Bool)
  | sendUpstream (action : UpAction)
  | sendClient (message : ClientMsg)
deriving DecidableEq

/-- Per-client slice of the ConnectionManager maps (api_server.py:54-62),
for one fixed client id: accItems is acc_items[id], lastAudioItemId is
last_audio_item_ids[id], canAcceptAudio is can_accept_audio[id],
validAudioItemIds is valid_audio_item_ids[id], audioGeneration is
audio_generation[id], sessionInfo is the id of sessions[id], and
upstreamConnected records whether id is a key of realtime_connections. -/
structure ClientState where
  upstreamConnected : Bool
  sessionInfo : Option String
  accItems : List (String × String)
  lastAudioItemId : Option String
  canAcceptAudio : Bool
  validAudioItemIds : Finset String
  audioGeneration : Nat
deriving DecidableEq

/-- State of a client right after ConnectionManager.connect
(api_server.py:64-71) once handle_realtime_connection has registered the
upstream connection (line 98). -/
def initClientState : ClientState :=
  { upstreamConnected := true
    sessionInfo := none
    accItems := []
    lastAudioItemId := none
    canAcceptAudio := false
    validAudioItemIds := ∅
    audioGeneration := 0 }

/-- Content of the instructions constant imported from prompt.py; that file
is outside the provided sources and no claim depends on the text, only on
which response.create calls carry it. -/
def SYSTEM_PROMPT : String := "SYSTEM_PROMPT"

/-- Instruction string of the error recovery response (api_server.py:447). -/
def errorInstructions : String :=
  "Inform the user that there was an error with the calculation."

/-- Embedding of the response.content_part.added handler body
(api_server.py:220-293): try to extract a function call; when its name is
multiply and a call id is present, execute and submit the output upstream;
an exception is printed and swallowed (lines 288-292). The handler ends in
continue unconditionally (line 293), so it never sends anything to the
client. -/
def contentPartHandle (part : PDict) : List Out :=
  match contentPartExtract part with
  | none => []
  | some ex =>
      if ex.functionName = some "multiply" ∧ truthyS ex.toolCallId = true then
        match multiplyFromArgs ex.arguments with
        | .ok r => [.sendUpstream (.submitToolOutputs [(ex.toolCallId.getD "", pyFloatStr r)])]
        | .error _ => []
      else []

/-- Embedding of the per-tool-call body of the response.requires_action
handler (api_server.py:318-357): resolve call id, name and arguments through
the or-chains, and for a multiply call with a call id produce either the
result output or an error output; other calls contribute nothing. -/
def toolCallHandle (tc : TCall) : Option (String × String) :=
  let toolCallId := pyOrS tc.id tc.tool_call_id
  let functionName := pyOrS (tc.function.bind TCFn.name) tc.name
  let argumentsStr : ArgSrc :=
    match pyOrArgs (tc.function.bind TCFn.arguments) tc.arguments with
    | some src => src
    | none => .jsonStr (some [])
  if functionName = some "multiply" ∧ truthyS toolCallId = true then
    match multiplyFromArgs argumentsStr with
    | .ok r => some (toolCallId.getD "", pyFloatStr r)
    | .error e => some (toolCallId.getD "", "Error: " ++ e)
  else none

/-- Embedding of one iteration of the upstream event loop of
ConnectionManager.handle_realtime_connection (api_server.py:124-462) for one
client: the state update together with the ordered list of observable
effects. Each branch mirrors the corresponding source branch; events that no
branch consumes fall through to the pass-through forward of line 462. -/
def handleRealtimeEvent (s : ClientState) : UpEv → ClientState × List Out
  | .sessionCreated sessionId =>
      ({ s with sessionInfo := sessionId },
       if truthyS sessionId = true then
         [.sendClient (.sessionCreatedMsg (sessionId.getD ""))]
       else [])
  | .sessionUpdated sessionId =>
      ({ s with sessionInfo := sessionId }, [])
  | .outputAudioDelta itemId delta =>
      let validIds :=
        if s.validAudioItemIds = ∅ then insert itemId s.validAudioItemIds
        else s.validAudioItemIds
      let s1 := { s with validAudioItemIds := validIds }
      if itemId ∈ validIds then
        let s2 :=
          if some itemId ≠ s1.lastAudioItemId then
            { s1 with lastAudioItemId := some itemId }
          else s1
        (s2, [.sendClient (.audioDelta itemId delta)])
      else (s1, [])
  | .outputAudioTranscriptDelta itemId delta =>
      if itemId ∈ s.validAudioItemIds then
        let text :=
          match dget s.accItems itemId with
          | none => delta
          | some t => t ++ delta
        ({ s with accItems := dset s.accItems itemId text },
         [.sendClient (.transcriptDelta itemId text)])
      else (s, [])
  | .responseCreated =>
      ({ s with validAudioItemIds := ∅ }, [])
  | .contentPartAdded part =>
      (s, contentPartHandle part)
  | .requiresAction toolCalls =>
      let toolOutputs := toolCalls.filterMap toolCallHandle
      if toolOutputs.isEmpty then
        (s, [.sendClient (.realtimeEvent (.requiresAction toolCalls))])
      else
        (s, [.sendUpstream (.submitToolOutputs toolOutputs)])
  | .functionCallArgumentsDone callId name arguments =>
      if name = some "multiply" ∧ truthyS callId = true then
        match multiplyFromArgs arguments with
        | .ok r =>
            (s, [.sendUpstream (.conversationItemCreate (callId.getD "") (pyFloatStr r)),
                 .sendUpstream (.responseCreate SYSTEM_PROMPT)])
        | .error e =>
            (s, [.sendUpstream (.conversationItemCreate (callId.getD "") ("Error: " ++ e)),
                 .sendUpstream (.responseCreate errorInstructions)])
      else
        (s, [.sendClient (.realtimeEvent (.functionCallArgumentsDone callId name arguments))])
  | .functionCallArgumentsDelta name =>
      (s, [.sendClient (.realtimeEvent (.functionCallArgumentsDelta name))])
  | .otherEvent payload =>
      (s, [.sendClient (.realtimeEvent (.otherEvent payload))])

/-- Inbound client commands (api_server.py:479-545). The clearFails flag on
start_recording and hard_stop models whether the upstream
input_audio_buffer.clear() call raises; the handlers swallow that failure in
a try/except (lines 499-502 and 521-524), so it has no observable effect. -/
inductive Cmd where
  | audioChunk (audio : String)
  | startRecording (clearFails : Bool)
  | hardStop (clearFails : Bool)
  | stopRecording
deriving DecidableEq

/-- Embedding of one iteration of the command loop of websocket_endpoint
(api_server.py:476-545) for one client, with the source ordering of local
mutations, upstream operations, the grace wait, and acknowledgements. The
guard on membership in realtime_connections becomes the upstreamConnected
flag. -/
def websocketCommand (s : ClientState) : Cmd → ClientState × List Out
  | .audioChunk audio =>
      if s.upstreamConnected = true ∧ s.canAcceptAudio = true then
        (s, [.sendUpstream (.inputAudioBufferAppend audio)])
      else (s, [])
  | .startRecording _ =>
      if s.upstreamConnected = true then
        ({ s with audioGeneration := s.audioGeneration + 1
                  validAudioItemIds := ∅
                  accItems := []
                  lastAudioItemId := none
                  canAcceptAudio := true },
         [.incrementGeneration, .clearValidAudioItemIds,
          .sendUpstream .responseCancel, .graceWait,
          .sendUpstream .inputAudioBufferClear,
          .clearTranscriptAccumulator, .clearLastAudioItemId,
          .setAudioAcceptance true, .sendClient .recordingStarted])
      else (s, [])
  | .hardStop _ =>
      if s.upstreamConnected = true then
        ({ s with canAcceptAudio := false
                  accItems := []
                  lastAudioItemId := none },
         [.setAudioAcceptance false, .sendUpstream .responseCancel,
          .sendUpstream .inputAudioBufferClear,
          .clearTranscriptAccumulator, .clearLastAudioItemId,
          .sendClient .hardStopped])
      else (s, [])
  | .stopRecording =>
      let s1 := { s with canAcceptAudio := false }
      if s1.upstreamConnected = true then
        (s1, [.setAudioAcceptance false,
              .sendUpstream .inputAudioBufferCommit,
              .sendUpstream (.responseCreate SYSTEM_PROMPT),
              .sendClient .recordingStopped])
      else (s1, [.setAudioAcceptance false])

/-- Interleaved per-client event alphabet: upstream events consumed by the
realtime task and commands consumed by the websocket loop; cooperative
scheduling interleaves the two loops at event granularity. -/
inductive SysEv where
  | up (e : UpEv)
  | cmd (c : Cmd)
deriving DecidableEq

def sysStep (s : ClientState) : SysEv → ClientState × List Out
  | .up e => handleRealtimeEvent s e
  | .cmd c => websocketCommand s c

/-- Run of a per-client interleaving, accumulating all observable effects. -/
def sysRun (s : ClientState) : List SysEv → ClientState × List Out
  | [] => (s, [])
  | e :: t =>
      let r1 := sysStep s e
      let r2 := sysRun r1.1 t
      (r2.1, r1.2 ++ r2.2)

/-- Embedding of the ConnectionManager state (api_server.py:54-62): the
eight per-client maps, as association lists keyed by client id. Map values
irrelevant to any claim (the websocket handle and the upstream connection
object) are collapsed to Unit; sessions keeps the session id. -/
structure ConnectionManager where
  active_connections : List (String × Unit)
  realtime_connections : List (String × Unit)
  sessions : List (String × String)
  acc_items : List (String × List (String × String))
  last_audio_item_ids : List (String × Option String)
  can_accept_audio : List (String × Bool)
  valid_audio_item_ids : List (String × Finset String)
  audio_generation : List (String × Nat)
deriving DecidableEq

/-- Manager with no connected client. -/
def emptyManager : ConnectionManager :=
  { active_connections := []
    realtime_connections := []
    sessions := []
    acc_items := []
    last_audio_item_ids := []
    can_accept_audio := []
    valid_audio_item_ids := []
    audio_generation := [] }

/-- Embedding of ConnectionManager.connect (api_server.py:64-71): accept the
websocket and initialise the six per-client entries; realtime_connections
and sessions are not touched here. -/
def ConnectionManager.connect (m : ConnectionManager) (client_id : String) :
    ConnectionManager :=
  { m with
    active_connections := dset m.active_connections client_id ()
    acc_items := dset m.acc_items client_id []
    last_audio_item_ids := dset m.last_audio_item_ids client_id none
    can_accept_audio := dset m.can_accept_audio client_id false
    valid_audio_item_ids := dset m.valid_audio_item_ids client_id ∅
    audio_generation := dset m.audio_generation client_id 0 }

/-- Embedding of ConnectionManager.disconnect (api_server.py:73-89): a
guarded delete on each of the eight per-client maps. -/
def ConnectionManager.disconnect (m : ConnectionManager) (client_id : String) :
    ConnectionManager :=
  { m with
    active_connections := ddel m.active_connections client_id
    realtime_connections := ddel m.realtime_connections client_id
    sessions := ddel m.sessions client_id
    acc_items := ddel m.acc_items client_id
    last_audio_item_ids := ddel m.last_audio_item_ids client_id
    can_accept_audio := ddel m.can_accept_audio client_id
    valid_audio_item_ids := ddel m.valid_audio_item_ids client_id
    audio_generation := ddel m.audio_generation client_id }

/-- Manager-level writes a live connection performs for its own client id.
Between connect and disconnect, every mutation of the eight maps in
api_server.py is an assignment at the client's own id: line 98 registers
the upstream connection, lines 148 and 160 store the session, and the
event-router and command handlers assign acc_items, last_audio_item_ids,
can_accept_audio, valid_audio_item_ids and audio_generation at the client
id (lines 168, 173, 193-195, 211, 491-509, 517-529, 534). -/
inductive MOp where
  | setRealtimeConnection
  | setSession (sessionId : String)
  | setAccItems (v : List (String × String))
  | setLastAudioItemId (v : Option String)
  | setCanAcceptAudio (v : Bool)
  | setValidAudioItemIds (v : Finset String)
  | setAudioGeneration (v : Nat)
deriving DecidableEq

def applyMOp (client_id : String) (m : ConnectionManager) : MOp → ConnectionManager
  | .setRealtimeConnection =>
      { m with realtime_connections := dset m.realtime_connections client_id () }
  | .setSession sid => { m with sessions := dset m.sessions client_id sid }
  | .setAccItems v => { m with acc_items := dset m.acc_items client_id v }
  | .setLastAudioItemId v =>
      { m with last_audio_item_ids := dset m.last_audio_item_ids client_id v }
  | .setCanAcceptAudio v =>
      { m with can_accept_audio := dset m.can_accept_audio client_id v }
  | .setValidAudioItemIds v =>
      { m with valid_audio_item_ids := dset m.valid_audio_item_ids client_id v }
  | .setAudioGeneration v =>
      { m with audio_generation := dset m.audio_generation client_id v }

def applyMOps (client_id : String) (ops : List MOp) (m : ConnectionManager) :
    ConnectionManager :=
  ops.foldl (applyMOp client_id) m

/-- The client id has no entry in any of the eight per-client maps. -/
def idAbsent (m : ConnectionManager) (client_id : String) : Prop :=
  dget m.active_connections client_id = none ∧
  dget m.realtime_connections client_id = none ∧
  dget m.sessions client_id = none ∧
  dget m.acc_items client_id = none ∧
  dget m.last_audio_item_ids client_id = none ∧
  dget m.can_accept_audio client_id = none ∧
  dget m.valid_audio_item_ids client_id = none ∧
  dget m.audio_generation client_id = none

/-- Two manager states have the same key set in every per-client map. -/
def sameKeys (m1 m2 : ConnectionManager) : Prop :=
  ∀ k : String,
    (dget m1.active_connections k).isSome = (dget m2.active_connections k).isSome ∧
    (dget m1.realtime_connections k).isSome = (dget m2.realtime_connections k).isSome ∧
    (dget m1.sessions k).isSome = (dget m2.sessions k).isSome ∧
    (dget m1.acc_items k).isSome = (dget m2.acc_items k).isSome ∧
    (dget m1.last_audio_item_ids k).isSome = (dget m2.last_audio_item_ids k).isSome ∧
    (dget m1.can_accept_audio k).isSome = (dget m2.can_accept_audio k).isSome ∧
    (dget m1.valid_audio_item_ids k).isSome = (dget m2.valid_audio_item_ids k).isSome ∧
    (dget m1.audio_generation k).isSome = (dget m2.audio_generation k).isSome

/-- Events that reset the audio trust window: response.created
(api_server.py:209-211) and start_recording (api_server.py:491-493). -/
def isReset : SysEv → Bool
  | .up .responseCreated => true
  | .cmd (.startRecording _) => true
  | _ => false

def isAudioDelta : SysEv → Bool
  | .up (.outputAudioDelta _ _) => true
  | _ => false

def isStartRecording : SysEv → Bool
  | .cmd (.startRecording _) => true
  | _ => false

def isHardStop : SysEv → Bool
  | .cmd (.hardStop _) => true
  | _ => false

def firstIsReset : List SysEv → Bool
  | [] => false
  | e :: _ => isReset e

/-- Item ids of audio_delta messages forwarded to the client. -/
def forwardedAudioIds (outs : List Out) : List String :=
  outs.filterMap fun o =>
    match o with
    | .sendClient (.audioDelta i _) => some i
    | _ => none

/-- Texts of transcript_delta messages forwarded to the client for one
item id. -/
def tFor (i : String) (outs : List Out) : List String :=
  outs.filterMap fun o =>
    match o with
    | .sendClient (.transcriptDelta j t) => if j = i then some t else none
    | _ => none

/-- Messages sent to the client among the observable effects. -/
def clientMsgsOf (outs : List Out) : List ClientMsg :=
  outs.filterMap fun o =>
    match o with
    | .sendClient msg => some msg
    | _ => none

/-- Item ids that are first-after-reset in a trace: walking the trace with a
freshness flag that a reset raises and any audio delta lowers, the id of an
audio delta met while fresh is first-after-reset. -/
def fars (fresh : Bool) : List SysEv → List String
  | [] => []
  | e :: t =>
      if isReset e = true then fars true t
      else
        match e with
        | .up (.outputAudioDelta i _) => if fresh then i :: fars false t else fars false t
        | _ => fars fresh t

/-- Chain of forwarded transcript texts: each extends its predecessor (the
first extends the incoming accumulator value, the empty string when the
accumulator has no entry). -/
def chainFrom : Option String → List String → Prop
  | _, [] => True
  | t0, t :: ts => (∃ d, t = t0.getD "" ++ d) ∧ chainFrom (some t) ts

/-- Last element of the forwarded-text list, defaulting to the incoming
accumulator value. -/
def lastOpt (t0 : Option String) : List String → Option String
  | [] => t0
  | t :: ts => lastOpt (some t) ts

theorem dget_dset_self {α : Type} (d : List (String × α)) (k : String) (v : α) :
    dget (dset d k v) k = some v := by
  induction d with
  | nil => simp [dset, dget]
  | cons p t ih =>
      by_cases h : p.1 = k
      · simp [dset, h, dget]
      · simp [dset, h, dget, ih]

theorem dget_dset_ne {α : Type} (d : List (String × α)) (k k' : String) (v : α)
    (h : ¬ k' = k) : dget (dset d k v) k' = dget d k' := by
  have h' : ¬ k = k' := fun hh => h hh.symm
  induction d with
  | nil => simp [dset, dget, h']
  | cons p t ih =>
      by_cases hp : p.1 = k
      · have hpk : ¬ p.1 = k' := by rw [hp]; exact h'
        simp [dset, hp, dget, h', hpk]
      · simp [dset, hp, dget, ih]

theorem dget_dDelAll_self {α : Type} (d : List (String × α)) (k : String) :
    dget (dDelAll d k) k = none := by
  induction d with
  | nil => simp [dDelAll, dget]
  | cons p t ih =>
      by_cases h : p.1 = k
      · simp [dDelAll, h, ih]
      · simp [dDelAll, h, dget, ih]

theorem dget_dDelAll_ne {α : Type} (d : List (String × α)) (k k' : String)
    (h : ¬ k' = k) : dget (dDelAll d k) k' = dget d k' := by
  have h' : ¬ k = k' := fun hh => h hh.symm
  induction d with
  | nil => simp [dDelAll]
  | cons p t ih =>
      by_cases hp : p.1 = k
      · have hpk : ¬ p.1 = k' := by rw [hp]; exact h'
        simp [dDelAll, hp, dget, hpk, h', ih]
      · simp [dDelAll, hp, dget, ih]

theorem dget_ddel_self {α : Type} (d : List (String × α)) (k : String) :
    dget (ddel d k) k = none := by
  unfold ddel
  by_cases h : (dget d k).isSome
  · simp [h, dget_dDelAll_self]
  · simp [h]
    cases hd : dget d k with
    | none => simp
    | some v => rw [hd] at h; simp at h

theorem dget_ddel_ne {α : Type} (d : List (String × α)) (k k' : String)
    (h : ¬ k' = k) : dget (ddel d k) k' = dget d k' := by
  unfold ddel
  by_cases hs : (dget d k).isSome
  · simp [hs, dget_dDelAll_ne _ _ _ h]
  · simp [hs]

theorem ddel_ddel {α : Type} (d : List (String × α)) (k : String) :
    ddel (ddel d k) k = ddel d k := by
  conv_lhs => rw [ddel]
  simp [dget_ddel_self]

/-- C9: calling disconnect a second time for an id that has already been
removed changes nothing; every per-client map is handled by a guarded delete
that is a no-op on an absent key, so no error can be raised and the state is
unchanged, even when some maps never held the id. -/
theorem c9_disconnect_idempotent (m : ConnectionManager) (client_id : String) :
    (m.disconnect client_id).disconnect client_id = m.disconnect client_id := by
  simp [ConnectionManager.disconnect, ddel_ddel]

theorem dget_applyMOp_ne (client_id k : String) (h : ¬ k = client_id)
    (m : ConnectionManager) (op : MOp) :
    dget (applyMOp client_id m op).active_connections k = dget m.active_connections k ∧
    dget (applyMOp client_id m op).realtime_connections k = dget m.realtime_connections k ∧
    dget (applyMOp client_id m op).sessions k = dget m.sessions k ∧
    dget (applyMOp client_id m op).acc_items k = dget m.acc_items k ∧
    dget (applyMOp client_id m op).last_audio_item_ids k = dget m.last_audio_item_ids k ∧
    dget (applyMOp client_id m op).can_accept_audio k = dget m.can_accept_audio k ∧
    dget (applyMOp client_id m op).valid_audio_item_ids k = dget m.valid_audio_item_ids k ∧
    dget (applyMOp client_id m op).audio_generation k = dget m.audio_generation k := by
  cases op <;> simp [applyMOp, dget_dset_ne _ _ _ _ h]

theorem dget_applyMOps_ne (client_id k : String) (h : ¬ k = client_id)
    (ops : List MOp) :
    ∀ m : ConnectionManager,
    dget (applyMOps client_id ops m).active_connections k = dget m.active_connections k ∧
    dget (applyMOps client_id ops m).realtime_connections k = dget m.realtime_connections k ∧
    dget (applyMOps client_id ops m).sessions k = dget m.sessions k ∧
    dget (applyMOps client_id ops m).acc_items k = dget m.acc_items k ∧
    dget (applyMOps client_id ops m).last_audio_item_ids k = dget m.last_audio_item_ids k ∧
    dget (applyMOps client_id ops m).can_accept_audio k = dget m.can_accept_audio k ∧
    dget (applyMOps client_id ops m).valid_audio_item_ids k = dget m.valid_audio_item_ids k ∧
    dget (applyMOps client_id ops m).audio_generation k = dget m.audio_generation k := by
  induction ops with
  | nil => intro m; simp [applyMOps]
  | cons op t ih =>
      intro m
      have h1 := dget_applyMOp_ne client_id k h m op
      have h2 := ih (applyMOp client_id m op)
      simp only [applyMOps, List.foldl_cons] at *
      exact ⟨h2.1.trans h1.1, (h2.2.1).trans h1.2.1, (h2.2.2.1).trans h1.2.2.1,
             (h2.2.2.2.1).trans h1.2.2.2.1, (h2.2.2.2.2.1).trans h1.2.2.2.2.1,
             (h2.2.2.2.2.2.1).trans h1.2.2.2.2.2.1,
             (h2.2.2.2.2.2.2.1).trans h1.2.2.2.2.2.2.1,
             (h2.2.2.2.2.2.2.2).trans h1.2.2.2.2.2.2.2⟩

/-- C8: for a client id absent from every map, after connect, any sequence
of the manager-level writes a live connection performs for that id, and a
final disconnect, no entry keyed by the id remains in any per-client map,
and every map has exactly the key set it had before connect. -/
theorem c8_disconnect_restores_keys (m : ConnectionManager) (client_id : String)
    (ops : List MOp) (h : idAbsent m client_id) :
    idAbsent ((applyMOps client_id ops (m.connect client_id)).disconnect client_id) client_id
    ∧ sameKeys ((applyMOps client_id ops (m.connect client_id)).disconnect client_id) m := by
  constructor
  · exact ⟨dget_ddel_self _ _, dget_ddel_self _ _, dget_ddel_self _ _, dget_ddel_self _ _,
           dget_ddel_self _ _, dget_ddel_self _ _, dget_ddel_self _ _, dget_ddel_self _ _⟩
  · intro k
    by_cases hk : k = client_id
    · subst hk
      obtain ⟨h1, h2, h3, h4, h5, h6, h7, h8⟩ := h
      simp [ConnectionManager.disconnect, dget_ddel_self, h1, h2, h3, h4, h5, h6, h7, h8]
    · have hops := dget_applyMOps_ne client_id k hk ops (m.connect client_id)
      have hconn :
          dget (m.connect client_id).active_connections k = dget m.active_connections k ∧
          dget (m.connect client_id).realtime_connections k = dget m.realtime_connections k ∧
          dget (m.connect client_id).sessions k = dget m.sessions k ∧
          dget (m.connect client_id).acc_items k = dget m.acc_items k ∧
          dget (m.connect client_id).last_audio_item_ids k = dget m.last_audio_item_ids k ∧
          dget (m.connect client_id).can_accept_audio k = dget m.can_accept_audio k ∧
          dget (m.connect client_id).valid_audio_item_ids k = dget m.valid_audio_item_ids k ∧
          dget (m.connect client_id).audio_generation k = dget m.audio_generation k := by
        simp [ConnectionManager.connect, dget_dset_ne _ _ _ _ hk]
      refine ⟨?_, ?_, ?_, ?_, ?_, ?_, ?_, ?_⟩ <;>
        simp [ConnectionManager.disconnect, dget_ddel_ne _ _ _ hk, hops.1, hops.2.1,
              hops.2.2.1, hops.2.2.2.1, hops.2.2.2.2.1, hops.2.2.2.2.2.1,
              hops.2.2.2.2.2.2.1, hops.2.2.2.2.2.2.2, hconn.1, hconn.2.1, hconn.2.2.1,
              hconn.2.2.2.1, hconn.2.2.2.2.1, hconn.2.2.2.2.2.1, hconn.2.2.2.2.2.2.1,
              hconn.2.2.2.2.2.2.2]

/-- Witness for c8_disconnect_restores_keys at a concrete manager, client id
and write sequence. -/
theorem c8_witness :
    idAbsent emptyManager "c" ∧
    (idAbsent ((applyMOps "c" [.setRealtimeConnection, .setSession "s1"]
        (emptyManager.connect "c")).disconnect "c") "c"
      ∧ sameKeys ((applyMOps "c" [.setRealtimeConnection, .setSession "s1"]
        (emptyManager.connect "c")).disconnect "c") emptyManager) :=
  ⟨⟨rfl, rfl, rfl, rfl, rfl, rfl, rfl, rfl⟩,
   c8_disconnect_restores_keys emptyManager "c" [.setRealtimeConnection, .setSession "s1"]
     ⟨rfl, rfl, rfl, rfl, rfl, rfl, rfl, rfl⟩⟩

/-- C3: with an established upstream connection, the start_recording handler
(api_server.py:486-510) applies exactly these effects in this order:
increment generation, clear validAudioItemIds, send the upstream
response-cancel, wait the fixed grace interval, clear the upstream
input-audio buffer (a clear failure, the clearFails flag, is swallowed and
changes nothing), clear the transcript accumulator and lastAudioItemId, set
audio acceptance to true, and acknowledge to the client; acceptance is set
only after the cancel, wait and clear steps. -/
theorem c3_start_recording_order (s : ClientState) (clearFails : Bool)
    (h : s.upstreamConnected = true) :
    websocketCommand s (.startRecording clearFails)
      = ({ s with audioGeneration := s.audioGeneration + 1
                  validAudioItemIds := ∅
                  accItems := []
                  lastAudioItemId := none
                  canAcceptAudio := true },
         [.incrementGeneration, .clearValidAudioItemIds,
          .sendUpstream .responseCancel, .graceWait,
          .sendUpstream .inputAudioBufferClear,
          .clearTranscriptAccumulator, .clearLastAudioItemId,
          .setAudioAcceptance true, .sendClient .recordingStarted]) := by
  simp [websocketCommand, h]

/-- Witness for c3_start_recording_order at the freshly connected client
state, with a failing buffer clear. -/
theorem c3_witness :
    initClientState.upstreamConnected = true ∧
    websocketCommand initClientState (.startRecording true)
      = ({ initClientState with
            audioGeneration := initClientState.audioGeneration + 1
            validAudioItemIds := ∅
            accItems := []
            lastAudioItemId := none
            canAcceptAudio := true },
         [.incrementGeneration, .clearValidAudioItemIds,
          .sendUpstream .responseCancel, .graceWait,
          .sendUpstream .inputAudioBufferClear,
          .clearTranscriptAccumulator, .clearLastAudioItemId,
          .setAudioAcceptance true, .sendClient .recordingStarted]) :=
  ⟨rfl, c3_start_recording_order initClientState true rfl⟩

/-- C4: a response.function_call_arguments.done event with name multiply,
arguments a=3 b=4, and call id c1 makes the handler
(api_server.py:366-417) submit exactly one function_call_output
conversation item with call id c1 and output 12.0, followed by exactly one
response.create, and nothing else. -/
theorem c4_multiply_3_4 (s : ClientState) :
    handleRealtimeEvent s
        (.functionCallArgumentsDone (some "c1") (some "multiply")
          (.jsonStr (some [("a", .num 3), ("b", .num 4)])))
      = (s, [.sendUpstream (.conversationItemCreate "c1" "12.0"),
             .sendUpstream (.responseCreate SYSTEM_PROMPT)]) := by
  have h12 : (3 : ℚ) * 4 = 12 := by norm_num
  have hout : multiplyFromArgs (.jsonStr (some [("a", .num 3), ("b", .num 4)]))
      = Except.ok 12 := by
    simp [multiplyFromArgs, argsLookup, dget, pyFloat, execute_multiply, h12]
  have hden : (12 : ℚ).den = 1 := by norm_num
  have hnum : (12 : ℚ).num = 12 := by norm_num
  have hstr : pyFloatStr 12 = "12.0" := by
    simp [pyFloatStr, hden, hnum]
    rfl
  simp [handleRealtimeEvent, hout, hstr, truthyS]

/-- C5 counterexample: a multiply call whose arguments lack the required
parameter a does not fail; the handler substitutes 0 (the default in
arguments.get("a", 0), api_server.py:382), reports the product 0.0 as a
successful function_call_output, and triggers a follow-up response. -/
theorem c5_counterexample :
    handleRealtimeEvent initClientState
        (.functionCallArgumentsDone (some "c1") (some "multiply")
          (.jsonStr (some [("b", .num 4)])))
      = (initClientState,
         [.sendUpstream (.conversationItemCreate "c1" "0.0"),
          .sendUpstream (.responseCreate SYSTEM_PROMPT)]) := by
  have h0 : (0 : ℚ) * 4 = 0 := by norm_num
  have hout : multiplyFromArgs (.jsonStr (some [("b", .num 4)]))
      = Except.ok 0 := by
    simp [multiplyFromArgs, argsLookup, dget, pyFloat, execute_multiply, h0]
  have hden : (0 : ℚ).den = 1 := by norm_num
  have hnum : (0 : ℚ).num = 0 := by norm_num
  have hstr : pyFloatStr 0 = "0.0" := by
    simp [pyFloatStr, hden, hnum]
    rfl
  simp [handleRealtimeEvent, hout, hstr, truthyS]

/-- C5 amended: a missing required parameter does not make the execution
fail; the handlers substitute 0 for it and succeed with the substituted
value. Only an argument that is present but fails numeric coercion makes the
execution fail, and that failure is reported as an error tool output (with a
follow-up response instructing the assistant to explain the error), not as a
raised InvalidArguments error. -/
theorem c5_missing_vs_uncoercible (s : ClientState) (cid : String)
    (args1 args2 : List (String × PyVal)) (qb : ℚ) (sa : String)
    (hcid : ¬ cid = "")
    (hmiss : dget args1 "a" = none)
    (hb : pyFloat (argsLookup args1 "b" (.num 0)) = Except.ok qb)
    (ha : dget args2 "a" = some (.str sa))
    (hbad : pyParseFloat sa = none) :
    multiplyFromArgs (.jsonStr (some args1)) = Except.ok 0
    ∧ multiplyFromArgs (.jsonStr (some args2))
        = Except.error ("could not convert string to float: " ++ sa)
    ∧ handleRealtimeEvent s (.functionCallArgumentsDone (some cid) (some "multiply")
        (.jsonStr (some args1)))
      = (s, [.sendUpstream (.conversationItemCreate cid "0.0"),
             .sendUpstream (.responseCreate SYSTEM_PROMPT)])
    ∧ handleRealtimeEvent s (.functionCallArgumentsDone (some cid) (some "multiply")
        (.jsonStr (some args2)))
      = (s, [.sendUpstream (.conversationItemCreate cid
               ("Error: " ++ ("could not convert string to float: " ++ sa))),
             .sendUpstream (.responseCreate errorInstructions)]) := by
  have hA1 : argsLookup args1 "a" (.num 0) = .num 0 := by simp [argsLookup, hmiss]
  have hP0 : pyFloat (.num 0) = Except.ok 0 := rfl
  have h1 : multiplyFromArgs (.jsonStr (some args1)) = Except.ok 0 := by
    simp [multiplyFromArgs, hA1, hP0, hb, execute_multiply, zero_mul]
  have hA2 : argsLookup args2 "a" (.num 0) = .str sa := by simp [argsLookup, ha]
  have hPs : pyFloat (.str sa)
      = Except.error ("could not convert string to float: " ++ sa) := by
    simp [pyFloat, hbad]
  have h2 : multiplyFromArgs (.jsonStr (some args2))
      = Except.error ("could not convert string to float: " ++ sa) := by
    simp [multiplyFromArgs, hA2, hPs]
  have hden : (0 : ℚ).den = 1 := by norm_num
  have hnum : (0 : ℚ).num = 0 := by norm_num
  have hstr : pyFloatStr 0 = "0.0" := by
    simp [pyFloatStr, hden, hnum]
    rfl
  refine ⟨h1, h2, ?_, ?_⟩
  · simp [handleRealtimeEvent, h1, hstr, truthyS, hcid]
  · simp [handleRealtimeEvent, h2, truthyS, hcid]

/-- Witness for c5_missing_vs_uncoercible: arguments without a (b = 4), and
arguments with the uncoercible string xyz for a. -/
theorem c5_witness :
    multiplyFromArgs (.jsonStr (some [("b", .num 4)])) = Except.ok 0
    ∧ multiplyFromArgs (.jsonStr (some [("a", .str "xyz")]))
        = Except.error ("could not convert string to float: " ++ "xyz")
    ∧ handleRealtimeEvent initClientState
        (.functionCallArgumentsDone (some "c2") (some "multiply")
          (.jsonStr (some [("b", .num 4)])))
      = (initClientState,
         [.sendUpstream (.conversationItemCreate "c2" "0.0"),
          .sendUpstream (.responseCreate SYSTEM_PROMPT)])
    ∧ handleRealtimeEvent initClientState
        (.functionCallArgumentsDone (some "c2") (some "multiply")
          (.jsonStr (some [("a", .str "xyz")])))
      = (initClientState,
         [.sendUpstream (.conversationItemCreate "c2"
            ("Error: " ++ ("could not convert string to float: " ++ "xyz"))),
          .sendUpstream (.responseCreate errorInstructions)]) :=
  c5_missing_vs_uncoercible initClientState "c2" [("b", .num 4)] [("a", .str "xyz")] 4 "xyz"
    (by decide) rfl rfl rfl rfl

theorem contentPartHandle_shape (part : PDict) :
    contentPartHandle part = [] ∨ ∃ a, contentPartHandle part = [Out.sendUpstream a] := by
  unfold contentPartHandle
  cases contentPartExtract part with
  | none => exact Or.inl rfl
  | some ex =>
      simp only
      split
      · split
        all_goals first
          | exact Or.inr ⟨_, rfl⟩
          | exact Or.inl rfl
      · exact Or.inl rfl

/-- C6 corrected/amended: a requires-action or function-call-arguments-done
event whose extracted tool name is not the registered multiply tool, or that
carries no resolvable call id, is forwarded unchanged to the client as a
generic pass-through realtime_event; a content-part-added event, by
contrast, is consumed by its handler (which ends in continue regardless of
the extraction outcome, api_server.py:293) and never reaches the client in
any form. -/
theorem c6_unknown_tool_passthrough (s : ClientState) (part : PDict)
    (tcs : List TCall) (cid nm : Option String) (args : ArgSrc)
    (htcs : ∀ tc ∈ tcs, toolCallHandle tc = none)
    (hfc : ¬ (nm = some "multiply" ∧ truthyS cid = true)) :
    (∀ msg : ClientMsg,
      Out.sendClient msg ∉ (handleRealtimeEvent s (.contentPartAdded part)).2)
    ∧ handleRealtimeEvent s (.requiresAction tcs)
        = (s, [.sendClient (.realtimeEvent (.requiresAction tcs))])
    ∧ handleRealtimeEvent s (.functionCallArgumentsDone cid nm args)
        = (s, [.sendClient (.realtimeEvent (.functionCallArgumentsDone cid nm args))]) := by
  refine ⟨?_, ?_, ?_⟩
  · intro msg
    rcases contentPartHandle_shape part with h | ⟨a, h⟩ <;>
      simp [handleRealtimeEvent, h]
  · have hnil : tcs.filterMap toolCallHandle = [] := List.filterMap_eq_nil_iff.mpr htcs
    simp [handleRealtimeEvent, hnil]
  · simp only [handleRealtimeEvent]
    rw [if_neg hfc]

/-- Concrete content part carrying a tool call for the unregistered tool
divide with call id c9. -/
def dividePart : PDict :=
  { type_ := some "function_call"
    name := some "divide"
    function_name := none
    arguments := some (.jsonStr (some [("a", .num 1), ("b", .num 2)]))
    args := none
    id := some "c9"
    tool_call_id := none
    function_call := none }

/-- C6 counterexample: the content-part-added event carrying the divide tool
call (extracted name divide, call id c9) produces no output at all; in
particular it is not forwarded to the client as a pass-through
realtime_event, contrary to the claim. -/
theorem c6_counterexample :
    handleRealtimeEvent initClientState (.contentPartAdded dividePart)
      = (initClientState, [])
    ∧ contentPartExtract dividePart
        = some { functionName := some "divide"
                 arguments := .jsonStr (some [("a", .num 1), ("b", .num 2)])
                 toolCallId := some "c9" }
    ∧ Out.sendClient (.realtimeEvent (.contentPartAdded dividePart))
        ∉ (handleRealtimeEvent initClientState (.contentPartAdded dividePart)).2 := by
  refine ⟨rfl, rfl, ?_⟩
  have h : handleRealtimeEvent initClientState (.contentPartAdded dividePart)
      = (initClientState, []) := rfl
  rw [h]
  simp

/-- Concrete requires-action tool call with an unregistered name. -/
def divideCall : TCall :=
  { id := some "x1"
    tool_call_id := none
    function := none
    name := some "divide"
    arguments := none }

/-- Witness for c6_unknown_tool_passthrough at concrete inputs. -/
theorem c6_witness :
    (∀ msg : ClientMsg,
      Out.sendClient msg ∉ (handleRealtimeEvent initClientState
        (.contentPartAdded dividePart)).2)
    ∧ handleRealtimeEvent initClientState (.requiresAction [divideCall])
        = (initClientState, [.sendClient (.realtimeEvent (.requiresAction [divideCall]))])
    ∧ handleRealtimeEvent initClientState
        (.functionCallArgumentsDone (some "c9") (some "divide") (.dict []))
        = (initClientState, [.sendClient (.realtimeEvent
            (.functionCallArgumentsDone (some "c9") (some "divide") (.dict [])))]) :=
  c6_unknown_tool_passthrough initClientState dividePart [divideCall]
    (some "c9") (some "divide") (.dict [])
    (by intro tc htc; simp at htc; subst htc; rfl)
    (by intro hcontra; exact absurd hcontra.1 (by decide))

theorem forwardedAudioIds_append (a b : List Out) :
    forwardedAudioIds (a ++ b) = forwardedAudioIds a ++ forwardedAudioIds b := by
  simp [forwardedAudioIds, List.filterMap_append]

theorem tFor_append (i : String) (a b : List Out) :
    tFor i (a ++ b) = tFor i a ++ tFor i b := by
  simp [tFor, List.filterMap_append]

theorem clientMsgsOf_append (a b : List Out) :
    clientMsgsOf (a ++ b) = clientMsgsOf a ++ clientMsgsOf b := by
  simp [clientMsgsOf, List.filterMap_append]

theorem sysRun_cons (s : ClientState) (e : SysEv) (t : List SysEv) :
    sysRun s (e :: t)
      = ((sysRun (sysStep s e).1 t).1, (sysStep s e).2 ++ (sysRun (sysStep s e).1 t).2) :=
  rfl

theorem sysStep_upstream (s : ClientState) (e : SysEv) :
    (sysStep s e).1.upstreamConnected = s.upstreamConnected := by
  cases e with
  | up ue =>
      cases ue <;> simp only [sysStep, handleRealtimeEvent] <;> (repeat' split) <;> rfl
  | cmd c =>
      cases c <;> simp only [sysStep, websocketCommand] <;> (repeat' split) <;> rfl

theorem sysRun_upstream (evs : List SysEv) :
    ∀ s : ClientState, (sysRun s evs).1.upstreamConnected = s.upstreamConnected := by
  induction evs with
  | nil => intro s; rfl
  | cons e t ih =>
      intro s
      rw [sysRun_cons]
      exact (ih (sysStep s e).1).trans (sysStep_upstream s e)

theorem step_reset (s : ClientState) (e : SysEv) (hup : s.upstreamConnected = true)
    (h : isReset e = true) :
    (sysStep s e).1.validAudioItemIds = ∅ ∧ forwardedAudioIds (sysStep s e).2 = [] := by
  cases e with
  | up ue =>
      cases ue <;> simp [isReset] at h <;>
        simp [sysStep, handleRealtimeEvent, forwardedAudioIds]
  | cmd c =>
      cases c <;> simp [isReset] at h <;>
        simp [sysStep, websocketCommand, hup, forwardedAudioIds]

theorem step_other (s : ClientState) (e : SysEv)
    (hr : isReset e = false) (hd : isAudioDelta e = false) :
    (sysStep s e).1.validAudioItemIds = s.validAudioItemIds
    ∧ forwardedAudioIds (sysStep s e).2 = [] := by
  cases e with
  | up ue =>
      cases ue with
      | contentPartAdded part =>
          rcases contentPartHandle_shape part with h | ⟨a, h⟩ <;>
            simp [sysStep, handleRealtimeEvent, h, forwardedAudioIds]
      | outputAudioDelta i d => simp [isAudioDelta] at hd
      | responseCreated => simp [isReset] at hr
      | _ =>
          simp only [sysStep, handleRealtimeEvent] <;> (repeat' split) <;>
            simp [forwardedAudioIds]
  | cmd c =>
      cases c with
      | startRecording cf => simp [isReset] at hr
      | _ =>
          simp only [sysStep, websocketCommand] <;> (repeat' split) <;>
            simp [forwardedAudioIds]

theorem step_delta (s : ClientState) (i d : String) :
    (s.validAudioItemIds = ∅ ∧
      (sysStep s (.up (.outputAudioDelta i d))).1.validAudioItemIds = {i} ∧
      (sysStep s (.up (.outputAudioDelta i d))).2 = [.sendClient (.audioDelta i d)])
    ∨ (¬ s.validAudioItemIds = ∅ ∧ i ∈ s.validAudioItemIds ∧
      (sysStep s (.up (.outputAudioDelta i d))).1.validAudioItemIds = s.validAudioItemIds ∧
      (sysStep s (.up (.outputAudioDelta i d))).2 = [.sendClient (.audioDelta i d)])
    ∨ (¬ s.validAudioItemIds = ∅ ∧ i ∉ s.validAudioItemIds ∧
      (sysStep s (.up (.outputAudioDelta i d))).1.validAudioItemIds = s.validAudioItemIds ∧
      (sysStep s (.up (.outputAudioDelta i d))).2 = []) := by
  by_cases h0 : s.validAudioItemIds = ∅
  · left
    refine ⟨h0, ?_, ?_⟩ <;>
      simp only [sysStep, handleRealtimeEvent, h0] <;>
      simp [Finset.mem_insert_self] <;> (repeat' split) <;> rfl
  · by_cases hm : i ∈ s.validAudioItemIds
    · right; left
      refine ⟨h0, hm, ?_, ?_⟩ <;>
        simp only [sysStep, handleRealtimeEvent, if_neg h0] <;>
        simp [hm] <;> (repeat' split) <;> rfl
    · right; right
      refine ⟨h0, hm, ?_, ?_⟩ <;>
        simp only [sysStep, handleRealtimeEvent, if_neg h0] <;>
        simp [hm]

theorem step_valid_shape (s : ClientState) (e : SysEv) :
    (sysStep s e).1.validAudioItemIds = s.validAudioItemIds
    ∨ (sysStep s e).1.validAudioItemIds = ∅
    ∨ (isAudioDelta e = true ∧ s.validAudioItemIds = ∅ ∧
        ∃ i, (sysStep s e).1.validAudioItemIds = {i}) := by
  by_cases hd : isAudioDelta e = true
  · cases e with
    | up ue =>
        cases ue <;> simp [isAudioDelta] at hd
        rename_i i d
        rcases step_delta s i d with ⟨h0, h1, _⟩ | ⟨_, _, h1, _⟩ | ⟨_, _, h1, _⟩
        · exact Or.inr (Or.inr ⟨rfl, h0, i, h1⟩)
        · exact Or.inl h1
        · exact Or.inl h1
    | cmd c => cases c <;> simp [isAudioDelta] at hd
  · by_cases hr : isReset e = true
    · cases e with
      | up ue =>
          cases ue <;> simp [isReset] at hr
          exact Or.inr (Or.inl (by simp [sysStep, handleRealtimeEvent]))
      | cmd c =>
          cases c <;> simp [isReset] at hr
          by_cases hup : s.upstreamConnected = true
          · exact Or.inr (Or.inl (by simp [sysStep, websocketCommand, hup]))
          · exact Or.inl (by simp [sysStep, websocketCommand, hup])
    · exact Or.inl (step_other s e (by simpa using hr) (by simpa using hd)).1

theorem run_card (evs : List SysEv) :
    ∀ s : ClientState, s.validAudioItemIds.card ≤ 1 →
      (sysRun s evs).1.validAudioItemIds.card ≤ 1 := by
  induction evs with
  | nil => intro s h; simpa [sysRun]
  | cons e t ih =>
      intro s h
      rw [sysRun_cons]
      apply ih
      rcases step_valid_shape s e with h1 | h1 | ⟨_, _, i, h1⟩ <;> rw [h1] <;> simp [h]

/-- C10: in every state reachable from a fresh client, validAudioItemIds has
at most one element, and an audio delta for a second, distinct item id
arriving while the set is nonempty is dropped: nothing is emitted and the
set is unchanged, so a new id is only ever admitted when the set is empty. -/
theorem c10_trust_window_singleton (evs : List SysEv) (j d : String) :
    (sysRun initClientState evs).1.validAudioItemIds.card ≤ 1
    ∧ (¬ (sysRun initClientState evs).1.validAudioItemIds = ∅ →
       j ∉ (sysRun initClientState evs).1.validAudioItemIds →
       (sysStep (sysRun initClientState evs).1 (.up (.outputAudioDelta j d))).2 = []
       ∧ (sysStep (sysRun initClientState evs).1
           (.up (.outputAudioDelta j d))).1.validAudioItemIds
         = (sysRun initClientState evs).1.validAudioItemIds) := by
  refine ⟨run_card evs initClientState (by simp [initClientState]), ?_⟩
  intro hne hj
  rcases step_delta (sysRun initClientState evs).1 j d with
    ⟨h0, _, _⟩ | ⟨_, hm, _, _⟩ | ⟨_, _, h1, h2⟩
  · exact absurd h0 hne
  · exact absurd hm hj
  · exact ⟨h2, h1⟩

/-- Witness for c10_trust_window_singleton: after one audio delta for item
i1 the set is the nonempty singleton containing i1, and a delta for item i2
is dropped. -/
theorem c10_witness :
    (sysRun initClientState
        [.up (.outputAudioDelta "i1" "x")]).1.validAudioItemIds.card ≤ 1
    ∧ ((sysStep (sysRun initClientState [.up (.outputAudioDelta "i1" "x")]).1
          (.up (.outputAudioDelta "i2" "y"))).2 = []
      ∧ (sysStep (sysRun initClientState [.up (.outputAudioDelta "i1" "x")]).1
          (.up (.outputAudioDelta "i2" "y"))).1.validAudioItemIds
        = (sysRun initClientState
            [.up (.outputAudioDelta "i1" "x")]).1.validAudioItemIds) :=
  ⟨(c10_trust_window_singleton [.up (.outputAudioDelta "i1" "x")] "i2" "y").1,
   (c10_trust_window_singleton [.up (.outputAudioDelta "i1" "x")] "i2" "y").2
     (by decide) (by decide)⟩

theorem fars_cons_reset (fresh : Bool) (e : SysEv) (t : List SysEv)
    (h : isReset e = true) : fars fresh (e :: t) = fars true t := by
  simp [fars, h]

theorem fars_cons_delta (fresh : Bool) (i d : String) (t : List SysEv) :
    fars fresh (.up (.outputAudioDelta i d) :: t)
      = if fresh then i :: fars false t else fars false t := by
  simp [fars, isReset]

theorem fars_cons_other (fresh : Bool) (e : SysEv) (t : List SysEv)
    (hr : isReset e = false) (hd : isAudioDelta e = false) :
    fars fresh (e :: t) = fars fresh t := by
  cases e with
  | up ue =>
      cases ue <;> simp [isAudioDelta] at hd ⊢ <;> simp [fars, isReset] at hr ⊢
  | cmd c =>
      cases c <;> simp [fars, isReset] at hr ⊢

theorem sysRun_append (l1 l2 : List SysEv) :
    ∀ s : ClientState,
      (sysRun s (l1 ++ l2)).1 = (sysRun (sysRun s l1).1 l2).1
      ∧ (sysRun s (l1 ++ l2)).2 = (sysRun s l1).2 ++ (sysRun (sysRun s l1).1 l2).2 := by
  induction l1 with
  | nil => intro s; simp [sysRun]
  | cons e t ih =>
      intro s
      rw [List.cons_append, sysRun_cons, sysRun_cons]
      have h := ih (sysStep s e).1
      exact ⟨h.1, by rw [h.2, List.append_assoc]⟩

theorem run_valid_empty_of_no_delta (evs : List SysEv) :
    ∀ s : ClientState, s.validAudioItemIds = ∅ →
      (∀ e ∈ evs, isAudioDelta e = false) →
      (sysRun s evs).1.validAudioItemIds = ∅ := by
  induction evs with
  | nil => intro s h _; simpa [sysRun]
  | cons e t ih =>
      intro s h hall
      rw [sysRun_cons]
      refine ih _ ?_ (fun x hx => hall x (List.mem_cons_of_mem e hx))
      rcases step_valid_shape s e with h1 | h1 | ⟨hde, _, i, h1⟩
      · rw [h1]; exact h
      · exact h1
      · exact absurd hde (by simp [hall e (List.mem_cons_self e t)])

theorem run_forwarded_in_fars (evs : List SysEv) :
    ∀ (s : ClientState) (fresh : Bool) (A : List String),
      s.upstreamConnected = true →
      (∀ i ∈ s.validAudioItemIds, i ∈ A) →
      (fresh = true ↔ s.validAudioItemIds = ∅) →
      (∀ j ∈ forwardedAudioIds (sysRun s evs).2, j ∈ A ∨ j ∈ fars fresh evs)
      ∧ (∀ j ∈ (sysRun s evs).1.validAudioItemIds, j ∈ A ∨ j ∈ fars fresh evs) := by
  induction evs with
  | nil =>
      intro s fresh A _ hsub _
      exact ⟨by simp [sysRun, forwardedAudioIds], fun j hj => Or.inl (hsub j hj)⟩
  | cons e t ih =>
      intro s fresh A hup hsub hfresh
      rw [sysRun_cons]
      have hup1 : (sysStep s e).1.upstreamConnected = true :=
        (sysStep_upstream s e).trans hup
      by_cases hd : isAudioDelta e = true
      · cases e with
        | up ue =>
            cases ue <;> simp [isAudioDelta] at hd
            rename_i i d0
            rcases step_delta s i d0 with ⟨h0, h1, h2⟩ | ⟨hne, hm, h1, h2⟩ | ⟨hne, hm, h1, h2⟩
            · have hf : fresh = true := hfresh.mpr h0
              subst hf
              rw [fars_cons_delta]
              simp only [if_pos rfl]
              have ihh := ih (sysStep s (.up (.outputAudioDelta i d0))).1 false (i :: A) hup1
                (by rw [h1]; intro j hj
                    rw [Finset.mem_singleton] at hj
                    rw [hj]; exact List.mem_cons_self i A)
                (⟨fun hcontra => by simp at hcontra,
                  fun hcontra => by
                    rw [h1] at hcontra
                    exact absurd hcontra (Finset.singleton_ne_empty i)⟩)
              have conv : ∀ j : String, (j ∈ i :: A ∨ j ∈ fars false t) →
                  (j ∈ A ∨ j ∈ i :: fars false t) := by
                intro j hj
                rcases hj with hj | hj
                · rcases List.mem_cons.mp hj with hj | hj
                  · subst hj; exact Or.inr (List.mem_cons_self j _)
                  · exact Or.inl hj
                · exact Or.inr (List.mem_cons_of_mem i hj)
              constructor
              · intro j hj
                rw [forwardedAudioIds_append] at hj
                rcases List.mem_append.mp hj with hj | hj
                · rw [h2] at hj
                  simp [forwardedAudioIds] at hj
                  rw [hj]
                  exact Or.inr (List.mem_cons_self i _)
                · exact conv j (ihh.1 j hj)
              · intro j hj
                exact conv j (ihh.2 j hj)
            · have hfne : ¬ fresh = true := fun hh => hne (hfresh.mp hh)
              have hf : fresh = false := by
                cases fresh
                · rfl
                · exact absurd rfl hfne
              subst hf
              rw [fars_cons_delta]
              simp only [Bool.false_eq_true, if_false]
              have ihh := ih (sysStep s (.up (.outputAudioDelta i d0))).1 false A hup1
                (by rw [h1]; exact hsub)
                (⟨fun hcontra => by simp at hcontra,
                  fun hcontra => by rw [h1] at hcontra; exact absurd hcontra hne⟩)
              constructor
              · intro j hj
                rw [forwardedAudioIds_append] at hj
                rcases List.mem_append.mp hj with hj | hj
                · rw [h2] at hj
                  simp [forwardedAudioIds] at hj
                  rw [hj]
                  exact Or.inl (hsub i hm)
                · exact ihh.1 j hj
              · exact ihh.2
            · have hfne : ¬ fresh = true := fun hh => hne (hfresh.mp hh)
              have hf : fresh = false := by
                cases fresh
                · rfl
                · exact absurd rfl hfne
              subst hf
              rw [fars_cons_delta]
              simp only [Bool.false_eq_true, if_false]
              have ihh := ih (sysStep s (.up (.outputAudioDelta i d0))).1 false A hup1
                (by rw [h1]; exact hsub)
                (⟨fun hcontra => by simp at hcontra,
                  fun hcontra => by rw [h1] at hcontra; exact absurd hcontra hne⟩)
              constructor
              · intro j hj
                rw [forwardedAudioIds_append] at hj
                rcases List.mem_append.mp hj with hj | hj
                · rw [h2] at hj
                  simp [forwardedAudioIds] at hj
                · exact ihh.1 j hj
              · exact ihh.2
        | cmd c => cases c <;> simp [isAudioDelta] at hd
      · by_cases hr : isReset e = true
        · have hres := step_reset s e hup hr
          rw [fars_cons_reset fresh e t hr]
          have ihh := ih (sysStep s e).1 true A hup1
            (by rw [hres.1]; intro j hj; simp at hj)
            (⟨fun _ => hres.1, fun _ => rfl⟩)
          constructor
          · intro j hj
            rw [forwardedAudioIds_append] at hj
            rcases List.mem_append.mp hj with hj | hj
            · rw [hres.2] at hj; simp at hj
            · exact ihh.1 j hj
          · exact ihh.2
        · have hoth := step_other s e (by simpa using hr) (by simpa using hd)
          rw [fars_cons_other fresh e t (by simpa using hr) (by simpa using hd)]
          have ihh := ih (sysStep s e).1 fresh A hup1
            (by rw [hoth.1]; exact hsub)
            (hfresh.trans (by rw [hoth.1]))
          constructor
          · intro j hj
            rw [forwardedAudioIds_append] at hj
            rcases List.mem_append.mp hj with hj | hj
            · rw [hoth.2] at hj; simp at hj
            · exact ihh.1 j hj
          · exact ihh.2

/-- C1: over any per-client interleaving of upstream events and client
commands that begins with a reset (a response.created event or a
start_recording command, matching the spec shape of reset-led segments), the
first audio delta after a reset is always forwarded to the client and its
item id is admitted into validAudioItemIds; and an audio delta whose item id
is never the first one observed after a reset is never forwarded. -/
theorem c1_first_after_reset_forwarded
    (pre mid post : List SysEv) (r : SysEv) (i d : String)
    (hfirst : firstIsReset (pre ++ r :: mid) = true)
    (hr : isReset r = true)
    (hmid : ∀ e ∈ mid, isAudioDelta e = false) :
    ((sysStep (sysRun initClientState (pre ++ r :: mid)).1
        (.up (.outputAudioDelta i d))).2 = [.sendClient (.audioDelta i d)]
      ∧ i ∈ (sysStep (sysRun initClientState (pre ++ r :: mid)).1
          (.up (.outputAudioDelta i d))).1.validAudioItemIds)
    ∧ (∀ j, j ∉ fars true (pre ++ r :: mid ++ .up (.outputAudioDelta i d) :: post) →
        j ∉ forwardedAudioIds
          (sysRun initClientState
            (pre ++ r :: mid ++ .up (.outputAudioDelta i d) :: post)).2) := by
  constructor
  · have hupPre : (sysRun initClientState pre).1.upstreamConnected = true := by
      rw [sysRun_upstream]
      rfl
    have hres := step_reset (sysRun initClientState pre).1 r hupPre hr
    have hmidres :
        (sysRun (sysStep (sysRun initClientState pre).1 r).1 mid).1.validAudioItemIds
          = ∅ := run_valid_empty_of_no_delta mid _ hres.1 hmid
    have hvalid :
        (sysRun initClientState (pre ++ r :: mid)).1.validAudioItemIds = ∅ := by
      rw [(sysRun_append pre (r :: mid) initClientState).1, sysRun_cons]
      exact hmidres
    rcases step_delta (sysRun initClientState (pre ++ r :: mid)).1 i d with
      ⟨_, h1, h2⟩ | ⟨hne, _, _, _⟩ | ⟨hne, _, _, _⟩
    · exact ⟨h2, by rw [h1]; exact Finset.mem_singleton_self i⟩
    · exact absurd hvalid hne
    · exact absurd hvalid hne
  · intro j hjn hjf
    have h := run_forwarded_in_fars
      (pre ++ r :: mid ++ .up (.outputAudioDelta i d) :: post)
      initClientState true [] rfl (by simp [initClientState])
      (⟨fun _ => rfl, fun _ => rfl⟩)
    rcases h.1 j hjf with hj | hj
    · simp at hj
    · exact hjn hj

/-- Witness for c1_first_after_reset_forwarded: a trace consisting of one
response.created reset followed by one audio delta for item i1. -/
theorem c1_witness :
    ((sysStep (sysRun initClientState
        (([] : List SysEv) ++ SysEv.up UpEv.responseCreated :: ([] : List SysEv))).1
        (.up (.outputAudioDelta "i1" "x"))).2
          = [.sendClient (.audioDelta "i1" "x")]
      ∧ "i1" ∈ (sysStep (sysRun initClientState
          (([] : List SysEv) ++ SysEv.up UpEv.responseCreated :: ([] : List SysEv))).1
          (.up (.outputAudioDelta "i1" "x"))).1.validAudioItemIds)
    ∧ (∀ j, j ∉ fars true (([] : List SysEv) ++ SysEv.up UpEv.responseCreated ::
          ([] : List SysEv) ++ .up (.outputAudioDelta "i1" "x") :: ([] : List SysEv)) →
        j ∉ forwardedAudioIds
          (sysRun initClientState (([] : List SysEv) ++ SysEv.up UpEv.responseCreated ::
            ([] : List SysEv) ++ .up (.outputAudioDelta "i1" "x")
              :: ([] : List SysEv))).2) :=
  c1_first_after_reset_forwarded [] [] [] (SysEv.up UpEv.responseCreated) "i1" "x"
    (by decide) (by decide) (by intro e he; simp at he)

theorem step_transcript_char (s : ClientState) (i : String) (e : SysEv)
    (hsr : isStartRecording e = false) (hhs : isHardStop e = false) :
    (tFor i (sysStep s e).2 = [] ∧ dget (sysStep s e).1.accItems i = dget s.accItems i)
    ∨ (∃ d0, e = .up (.outputAudioTranscriptDelta i d0) ∧ i ∈ s.validAudioItemIds ∧
        tFor i (sysStep s e).2 = [(dget s.accItems i).getD "" ++ d0] ∧
        dget (sysStep s e).1.accItems i
          = some ((dget s.accItems i).getD "" ++ d0)) := by
  cases e with
  | up ue =>
      cases ue with
      | outputAudioTranscriptDelta j d0 =>
          by_cases hv : j ∈ s.validAudioItemIds
          · by_cases hij : j = i
            · subst hij
              right
              refine ⟨d0, rfl, hv, ?_, ?_⟩
              · cases hacc : dget s.accItems j <;>
                  simp [sysStep, handleRealtimeEvent, hv, tFor, hacc]
              · cases hacc : dget s.accItems j <;>
                  simp [sysStep, handleRealtimeEvent, hv, hacc, dget_dset_self]
            · left
              have hji : ¬ i = j := fun hh => hij hh.symm
              constructor
              · simp [sysStep, handleRealtimeEvent, hv, tFor, hij]
              · simp [sysStep, handleRealtimeEvent, hv, dget_dset_ne _ _ _ _ hji]
          · left
            constructor
            · simp [sysStep, handleRealtimeEvent, hv, tFor]
            · simp [sysStep, handleRealtimeEvent, hv]
      | contentPartAdded part =>
          left
          rcases contentPartHandle_shape part with h | ⟨a, h⟩ <;>
            simp [sysStep, handleRealtimeEvent, h, tFor]
      | _ =>
          left
          constructor <;>
            simp only [sysStep, handleRealtimeEvent] <;> (repeat' split) <;>
            simp [tFor]
  | cmd c =>
      cases c with
      | startRecording cf => simp [isStartRecording] at hsr
      | hardStop cf => simp [isHardStop] at hhs
      | _ =>
          left
          constructor <;>
            simp only [sysStep, websocketCommand] <;> (repeat' split) <;>
            simp [tFor]

theorem run_transcript_chain (evs : List SysEv) :
    ∀ (s : ClientState) (i : String),
      (∀ e ∈ evs, isStartRecording e = false ∧ isHardStop e = false) →
      chainFrom (dget s.accItems i) (tFor i (sysRun s evs).2)
      ∧ dget (sysRun s evs).1.accItems i
          = lastOpt (dget s.accItems i) (tFor i (sysRun s evs).2) := by
  induction evs with
  | nil => intro s i _; exact ⟨trivial, rfl⟩
  | cons e t ih =>
      intro s i hall
      rw [sysRun_cons, tFor_append]
      have hmem := hall e (List.mem_cons_self e t)
      have ihh := ih (sysStep s e).1 i (fun x hx => hall x (List.mem_cons_of_mem e hx))
      rcases step_transcript_char s i e hmem.1 hmem.2 with
        ⟨h1, h2⟩ | ⟨d0, _, _, h1, h2⟩
      · rw [h1]
        rw [h2] at ihh
        simpa using ihh
      · rw [h1]
        rw [h2] at ihh
        constructor
        · rw [List.singleton_append]
          exact ⟨⟨d0, rfl⟩, ihh.1⟩
        · rw [List.singleton_append]
          exact ihh.2

theorem step_generation (s : ClientState) (e : SysEv)
    (h : isStartRecording e = false) :
    (sysStep s e).1.audioGeneration = s.audioGeneration := by
  cases e with
  | up ue =>
      cases ue <;> simp only [sysStep, handleRealtimeEvent] <;> (repeat' split) <;> rfl
  | cmd c =>
      cases c with
      | startRecording cf => simp [isStartRecording] at h
      | _ =>
          simp only [sysStep, websocketCommand] <;> (repeat' split) <;> rfl

theorem run_generation (evs : List SysEv) :
    ∀ s : ClientState, (∀ e ∈ evs, isStartRecording e = false) →
      (sysRun s evs).1.audioGeneration = s.audioGeneration := by
  induction evs with
  | nil => intro s _; rfl
  | cons e t ih =>
      intro s hall
      rw [sysRun_cons]
      exact (ih (sysStep s e).1 (fun x hx => hall x (List.mem_cons_of_mem e hx))).trans
        (step_generation s e (hall e (List.mem_cons_self e t)))

/-- C2 corrected/amended: within a window containing no start_recording
(no generation change, witnessed by the generation conjunct) and no
hard_stop, the transcript texts forwarded for an item id form a
prefix-extending chain: each forwarded value extends the previous one (the
first extends the incoming accumulator value), each forwarded step appends
exactly the event delta to the stored accumulator, and the accumulator
always equals the last forwarded value, so it resets to empty only on a
generation change or a hard_stop. -/
theorem c2_transcript_prefix_chain (s : ClientState) (evs : List SysEv) (i : String)
    (hall : ∀ e ∈ evs, isStartRecording e = false ∧ isHardStop e = false) :
    chainFrom (dget s.accItems i) (tFor i (sysRun s evs).2)
    ∧ dget (sysRun s evs).1.accItems i
        = lastOpt (dget s.accItems i) (tFor i (sysRun s evs).2)
    ∧ (sysRun s evs).1.audioGeneration = s.audioGeneration
    ∧ (∀ d0, i ∈ s.validAudioItemIds →
        (sysStep s (.up (.outputAudioTranscriptDelta i d0))).2
          = [.sendClient (.transcriptDelta i ((dget s.accItems i).getD "" ++ d0))]) := by
  have h := run_transcript_chain evs s i hall
  refine ⟨h.1, h.2, run_generation evs s (fun e he => (hall e he).1), ?_⟩
  intro d0 hv
  cases hacc : dget s.accItems i <;>
    simp [sysStep, handleRealtimeEvent, hv, hacc]

/-- Witness for c2_transcript_prefix_chain: one admitting audio delta for i1
followed by two transcript deltas. -/
theorem c2_witness :
    chainFrom (dget initClientState.accItems "i1")
      (tFor "i1" (sysRun initClientState
        [.up (.outputAudioDelta "i1" "z"),
         .up (.outputAudioTranscriptDelta "i1" "He"),
         .up (.outputAudioTranscriptDelta "i1" "llo")]).2)
    ∧ dget (sysRun initClientState
        [.up (.outputAudioDelta "i1" "z"),
         .up (.outputAudioTranscriptDelta "i1" "He"),
         .up (.outputAudioTranscriptDelta "i1" "llo")]).1.accItems "i1"
      = lastOpt (dget initClientState.accItems "i1")
          (tFor "i1" (sysRun initClientState
            [.up (.outputAudioDelta "i1" "z"),
             .up (.outputAudioTranscriptDelta "i1" "He"),
             .up (.outputAudioTranscriptDelta "i1" "llo")]).2)
    ∧ (sysRun initClientState
        [.up (.outputAudioDelta "i1" "z"),
         .up (.outputAudioTranscriptDelta "i1" "He"),
         .up (.outputAudioTranscriptDelta "i1" "llo")]).1.audioGeneration
      = initClientState.audioGeneration
    ∧ (∀ d0, "i1" ∈ initClientState.validAudioItemIds →
        (sysStep initClientState (.up (.outputAudioTranscriptDelta "i1" d0))).2
          = [.sendClient (.transcriptDelta "i1"
              ((dget initClientState.accItems "i1").getD "" ++ d0))]) :=
  c2_transcript_prefix_chain initClientState
    [.up (.outputAudioDelta "i1" "z"),
     .up (.outputAudioTranscriptDelta "i1" "He"),
     .up (.outputAudioTranscriptDelta "i1" "llo")] "i1" (by decide)

/-- Event trace for the C2 counterexample: an admitting audio delta, two
transcript deltas (forwarding He then Hello), a hard_stop (which clears the
accumulator without touching the generation or the valid set), then a third
transcript delta. -/
def c2Trace : List SysEv :=
  [.up (.outputAudioDelta "i1" "z"),
   .up (.outputAudioTranscriptDelta "i1" "He"),
   .up (.outputAudioTranscriptDelta "i1" "llo"),
   .cmd (.hardStop false),
   .up (.outputAudioTranscriptDelta "i1" "x")]

/-- C2 counterexample: within one generation (the counter never changes in
this trace) the transcript texts forwarded for item i1 are He, Hello, x; the
third forwarded value x is not the previously forwarded value Hello
concatenated with the delta x, because the intervening hard_stop cleared the
accumulator without a generation change. -/
theorem c2_counterexample :
    tFor "i1" (sysRun initClientState c2Trace).2 = ["He", "Hello", "x"]
    ∧ (sysRun initClientState c2Trace).1.audioGeneration
        = initClientState.audioGeneration
    ∧ ¬ (("x" : String) = "Hello" ++ "x") := by
  refine ⟨by decide, by decide, by decide⟩

/-- Write-back of the per-client view into the manager maps at the client
id, covering the per-client fields the command handlers mutate. -/
def writeClient (m : ConnectionManager) (client_id : String) (s : ClientState) :
    ConnectionManager :=
  { m with
    acc_items := dset m.acc_items client_id s.accItems
    last_audio_item_ids := dset m.last_audio_item_ids client_id s.lastAudioItemId
    can_accept_audio := dset m.can_accept_audio client_id s.canAcceptAudio
    valid_audio_item_ids := dset m.valid_audio_item_ids client_id s.validAudioItemIds
    audio_generation := dset m.audio_generation client_id s.audioGeneration }

/-- Observable behaviour of websocket_endpoint (api_server.py:468-549),
together with its spawned realtime task, when the upstream handshake at line
97 raises. manager.connect has already run (line 470); the task created at
line 473 dies at line 97 before registering the upstream connection, sending
any message, or touching any state, and its exception is stored in the
never-awaited task object, so it is reported nowhere; the command loop keeps
serving the client with realtime_connections lacking the id (the
upstreamConnected flag false), and disconnect runs only on
WebSocketDisconnect (lines 547-549), which does not happen while the client
transport stays open. The function returns the manager state and the
observable effects after the given inbound client commands. -/
def endpointUnderHandshakeFailure (m : ConnectionManager) (client_id : String)
    (cmds : List Cmd) : ConnectionManager × List Out :=
  let m1 := m.connect client_id
  let r := sysRun { initClientState with upstreamConnected := false }
    (cmds.map SysEv.cmd)
  (writeClient m1 client_id r.1, r.2)

theorem cmd_no_client_msgs_when_disconnected (c : Cmd) (s : ClientState)
    (h : s.upstreamConnected = false) :
    clientMsgsOf (sysStep s (.cmd c)).2 = [] := by
  cases c <;> simp [sysStep, websocketCommand, h, clientMsgsOf]

theorem run_cmds_no_client_msgs (cmds : List Cmd) :
    ∀ s : ClientState, s.upstreamConnected = false →
      clientMsgsOf (sysRun s (cmds.map SysEv.cmd)).2 = [] := by
  induction cmds with
  | nil => intro s _; rfl
  | cons c t ih =>
      intro s h
      rw [List.map_cons, sysRun_cons, clientMsgsOf_append,
          cmd_no_client_msgs_when_disconnected c s h,
          ih (sysStep s (.cmd c)).1 ((sysStep_upstream s (.cmd c)).trans h)]
      rfl

/-- C7 evaluation at the failing input: when the upstream handshake raises,
no message whatsoever reaches the client (in particular no terminal
notification), the upstream connection is never registered, and every
per-client map still holds an entry for the id (no disconnect-equivalent
cleanup), whatever commands the client sends while its transport stays
open. -/
theorem c7_handshake_failure_unreported (m : ConnectionManager) (client_id : String)
    (cmds : List Cmd) :
    clientMsgsOf (endpointUnderHandshakeFailure m client_id cmds).2 = []
    ∧ dget (endpointUnderHandshakeFailure m client_id cmds).1.active_connections
        client_id = some ()
    ∧ dget (endpointUnderHandshakeFailure m client_id cmds).1.realtime_connections
        client_id = dget m.realtime_connections client_id
    ∧ (dget (endpointUnderHandshakeFailure m client_id cmds).1.acc_items
        client_id).isSome = true
    ∧ (dget (endpointUnderHandshakeFailure m client_id cmds).1.last_audio_item_ids
        client_id).isSome = true
    ∧ (dget (endpointUnderHandshakeFailure m client_id cmds).1.can_accept_audio
        client_id).isSome = true
    ∧ (dget (endpointUnderHandshakeFailure m client_id cmds).1.valid_audio_item_ids
        client_id).isSome = true
    ∧ (dget (endpointUnderHandshakeFailure m client_id cmds).1.audio_generation
        client_id).isSome = true := by
  refine ⟨run_cmds_no_client_msgs cmds _ rfl, ?_, ?_, ?_, ?_, ?_, ?_, ?_⟩ <;>
    simp [endpointUnderHandshakeFailure, writeClient, ConnectionManager.connect,
      dget_dset_self]
